import Mathlib

/-!
Verification development for the InstantAI conversational front-end.

The definitions below are shallow embeddings of the repository's
orchestration code:

* `ChatWindow` models `web_crawler/frontend/src/components/ChatWindow.jsx`
  (the `send` turn handler, its thinking placeholder bookkeeping and its
  reconciliation of optimistic history with backend-returned history).
* `AppMain` models the unnamed `App.tsx` (src/unnamed/part_001): the
  crawl -> chat pipeline, clarification handling and the input box state.
* `SessionStore` models the globals of src/unnamed/part_000 together with
  the `ChatWindow` variant of src/unnamed/part_004.
* `Json`, `Json.parse` and `Json.stringify` model the JavaScript JSON
  primitives as used by `ChatMessage.jsx` (payload sniffing) and
  `ChatWindow.jsx` (serialising table payloads).  `renderKind` models the
  table/plain classification of `ChatMessage.jsx`.

JavaScript-specific behaviour (truthiness of `undefined`, `null`, empty
strings and the fact that empty arrays are truthy) is made explicit via
`Option` types and the `jsTruthy*` helpers.
-/

/-- A chat message record: the `\x7b role, text \x7d` objects every frontend keeps. -/
structure Message where
  role : String
  text : String
  deriving DecidableEq, Repr

/-- Outcome of one network call: either the parsed JSON body (`ok`) or a
transport/parse exception carrying a message (`err`). -/
inductive NetResult (α : Type) where
  | ok (data : α) : NetResult α
  | err (message : String) : NetResult α

/-- JSON values as produced by `JSON.parse`.  Numbers are kept exactly as
`mantissa * 10 ^ exponent`; sufficient for the truthiness tests the code
performs on parsed payloads. -/
inductive Json where
  | null : Json
  | bool (b : Bool) : Json
  | num (mantissa : Int) (exponent : Int) : Json
  | str (s : String) : Json
  | arr (items : List Json) : Json
  | obj (members : List (String × Json)) : Json

/-- Characters removed by JavaScript `String.prototype.trim`: ASCII
whitespace, NBSP, BOM, the Unicode space separators and the line and
paragraph separators. -/
def jsWhitespace (c : Char) : Bool :=
  let n := c.toNat
  n == 0x20 || n == 0x9 || n == 0xa || n == 0xd || n == 0xb || n == 0xc ||
  n == 0xa0 || n == 0xfeff || n == 0x1680 ||
  (0x2000 <= n && n <= 0x200a) || n == 0x2028 || n == 0x2029 ||
  n == 0x202f || n == 0x205f || n == 0x3000

/-- JavaScript `String.prototype.trim`. -/
def jsTrim (s : String) : String :=
  String.mk (((s.data.dropWhile jsWhitespace).reverse.dropWhile jsWhitespace).reverse)

/-- JavaScript truthiness of an optional string field (`undefined`/`null`
and the empty string are falsy). -/
def jsTruthyOptStr : Option String → Bool
  | none => false
  | some s => s != ""

/-- JavaScript truthiness of a property-lookup result on a parsed JSON
value (`undefined`, `null`, `false`, `0` and `""` are falsy; arrays and
objects, including empty ones, are truthy). -/
def jsTruthy : Option Json → Bool
  | none => false
  | some Json.null => false
  | some (Json.bool b) => b
  | some (Json.num m _) => m != 0
  | some (Json.str s) => s != ""
  | some (Json.arr _) => true
  | some (Json.obj _) => true

/-- JavaScript property access `v.key` on a parsed JSON value: defined for
objects only (later duplicate keys win, as with `JSON.parse`). -/
def getProp : Json → String → Option Json
  | Json.obj ms, k => (ms.reverse.find? (fun kv => kv.fst == k)).map (fun kv => kv.snd)
  | _, _ => none

/-- Whitespace accepted between JSON tokens by `JSON.parse`. -/
def jsonWs (c : Char) : Bool :=
  c == ' ' || c == '\t' || c == '\n' || c == '\r'

/-- Skip JSON inter-token whitespace. -/
def skipWs : List Char → List Char
  | [] => []
  | c :: cs => if jsonWs c then skipWs cs else c :: cs

/-- Value of one hexadecimal digit. -/
def hexVal (c : Char) : Option Nat :=
  if '0' ≤ c && c ≤ '9' then some (c.toNat - 48)
  else if 'a' ≤ c && c ≤ 'f' then some (c.toNat - 87)
  else if 'A' ≤ c && c ≤ 'F' then some (c.toNat - 55)
  else none

/-- Parse the body of a JSON string literal (after the opening quote),
returning the decoded characters and the input remaining after the
closing quote. -/
def parseStringBody : List Char → Option (List Char × List Char)
  | [] => none
  | '"' :: cs => some ([], cs)
  | '\\' :: '"' :: cs => (parseStringBody cs).map (fun p => ('"' :: p.fst, p.snd))
  | '\\' :: '\\' :: cs => (parseStringBody cs).map (fun p => ('\\' :: p.fst, p.snd))
  | '\\' :: '/' :: cs => (parseStringBody cs).map (fun p => ('/' :: p.fst, p.snd))
  | '\\' :: 'b' :: cs => (parseStringBody cs).map (fun p => ('\x08' :: p.fst, p.snd))
  | '\\' :: 'f' :: cs => (parseStringBody cs).map (fun p => ('\x0c' :: p.fst, p.snd))
  | '\\' :: 'n' :: cs => (parseStringBody cs).map (fun p => ('\n' :: p.fst, p.snd))
  | '\\' :: 'r' :: cs => (parseStringBody cs).map (fun p => ('\r' :: p.fst, p.snd))
  | '\\' :: 't' :: cs => (parseStringBody cs).map (fun p => ('\t' :: p.fst, p.snd))
  | '\\' :: 'u' :: h1 :: h2 :: h3 :: h4 :: cs =>
    match hexVal h1, hexVal h2, hexVal h3, hexVal h4 with
    | some a, some b, some c, some d =>
      let n := ((a * 16 + b) * 16 + c) * 16 + d
      if _h : n < 0xd800 ∨ (0xdfff < n ∧ n < 0x110000) then
        (parseStringBody cs).map (fun p => (Char.ofNat n :: p.fst, p.snd))
      else none
    | _, _, _, _ => none
  | '\\' :: _ => none
  | c :: cs =>
    if c.toNat < 0x20 then none
    else (parseStringBody cs).map (fun p => (c :: p.fst, p.snd))

/-- Collect a run of decimal digits. -/
def takeDigits : List Char → List Nat × List Char
  | [] => ([], [])
  | c :: cs =>
    if '0' ≤ c && c ≤ '9' then
      let p := takeDigits cs
      ((c.toNat - 48) :: p.fst, p.snd)
    else ([], c :: cs)

/-- Decimal digits to a natural number. -/
def digitsToNat (ds : List Nat) : Nat :=
  ds.foldl (fun a d => a * 10 + d) 0

/-- Parse a JSON number token, as `JSON.parse` accepts it. -/
def parseNumber (cs0 : List Char) : Option (Json × List Char) :=
  let signed : Bool × List Char :=
    match cs0 with
    | '-' :: cs => (true, cs)
    | cs => (false, cs)
  let neg := signed.fst
  let afterInt : Option (List Nat × List Char) :=
    match signed.snd with
    | '0' :: cs =>
      match cs with
      | c :: _ => if '0' ≤ c && c ≤ '9' then none else some ([0], cs)
      | [] => some ([0], [])
    | cs =>
      let p := takeDigits cs
      if p.fst.isEmpty then none else some p
  match afterInt with
  | none => none
  | some (intDs, rest1) =>
    let fracp : Option (List Nat × List Char) :=
      match rest1 with
      | '.' :: cs =>
        let p := takeDigits cs
        if p.fst.isEmpty then none else some p
      | _ => some ([], rest1)
    match fracp with
    | none => none
    | some (fracDs, rest2) =>
      let expp : Option (Int × List Char) :=
        match rest2 with
        | 'e' :: cs | 'E' :: cs =>
          let esigned : Bool × List Char :=
            match cs with
            | '+' :: cs2 => (false, cs2)
            | '-' :: cs2 => (true, cs2)
            | cs2 => (false, cs2)
          let p := takeDigits esigned.snd
          if p.fst.isEmpty then none
          else
            let e : Int := Int.ofNat (digitsToNat p.fst)
            some (if esigned.fst then -e else e, p.snd)
        | _ => some (0, rest2)
      match expp with
      | none => none
      | some (e, rest3) =>
        let mant : Int := Int.ofNat (digitsToNat (intDs ++ fracDs))
        some (Json.num (if neg then -mant else mant) (e - Int.ofNat fracDs.length), rest3)

mutual

/-- Fuel-indexed parser for one JSON value (models `JSON.parse`). -/
def parseVal : Nat → List Char → Option (Json × List Char)
  | 0, _ => none
  | fuel + 1, cs =>
    match skipWs cs with
    | 't' :: 'r' :: 'u' :: 'e' :: r => some (Json.bool true, r)
    | 'f' :: 'a' :: 'l' :: 's' :: 'e' :: r => some (Json.bool false, r)
    | 'n' :: 'u' :: 'l' :: 'l' :: r => some (Json.null, r)
    | '"' :: r => (parseStringBody r).map (fun p => (Json.str (String.mk p.fst), p.snd))
    | '\x7b' :: r =>
      match skipWs r with
      | '\x7d' :: r2 => some (Json.obj [], r2)
      | r2 => (parseMembers fuel r2).map (fun p => (Json.obj p.fst, p.snd))
    | '[' :: r =>
      match skipWs r with
      | ']' :: r2 => some (Json.arr [], r2)
      | r2 => (parseItems fuel r2).map (fun p => (Json.arr p.fst, p.snd))
    | r => parseNumber r

/-- Fuel-indexed parser for the members of a JSON object. -/
def parseMembers : Nat → List Char → Option (List (String × Json) × List Char)
  | 0, _ => none
  | fuel + 1, cs =>
    match skipWs cs with
    | '"' :: r =>
      match parseStringBody r with
      | none => none
      | some (k, r2) =>
        match skipWs r2 with
        | ':' :: r3 =>
          match parseVal fuel r3 with
          | none => none
          | some (v, r4) =>
            match skipWs r4 with
            | ',' :: r5 =>
              match parseMembers fuel r5 with
              | none => none
              | some (ms, r6) => some ((String.mk k, v) :: ms, r6)
            | '\x7d' :: r5 => some ([(String.mk k, v)], r5)
            | _ => none
        | _ => none
    | _ => none

/-- Fuel-indexed parser for the items of a JSON array. -/
def parseItems : Nat → List Char → Option (List Json × List Char)
  | 0, _ => none
  | fuel + 1, cs =>
    match parseVal fuel cs with
    | none => none
    | some (v, r) =>
      match skipWs r with
      | ',' :: r2 => (parseItems fuel r2).map (fun p => (v :: p.fst, p.snd))
      | ']' :: r2 => some ([v], r2)
      | _ => none

end

/-- Model of JavaScript `JSON.parse`: `none` when the parse throws. -/
def Json.parse (s : String) : Option Json :=
  match parseVal (s.length + 1) s.data with
  | some (j, rest) => if skipWs rest = [] then some j else none
  | none => none

/-- One hexadecimal digit as a string. -/
def hexDigitStr (n : Nat) : String :=
  String.singleton (if n < 10 then Char.ofNat (48 + n) else Char.ofNat (87 + n))

/-- Escape one character the way `JSON.stringify` does inside strings. -/
def escapeChar (c : Char) : String :=
  if c = '"' then "\\\""
  else if c = '\\' then "\\\\"
  else if c = '\n' then "\\n"
  else if c = '\r' then "\\r"
  else if c = '\t' then "\\t"
  else if c = '\x08' then "\\b"
  else if c = '\x0c' then "\\f"
  else if c.toNat < 0x20 then "\\u00" ++ hexDigitStr (c.toNat / 16) ++ hexDigitStr (c.toNat % 16)
  else String.singleton c

/-- Escape every character of a string body. -/
def escapeChars : List Char → String
  | [] => ""
  | c :: cs => escapeChar c ++ escapeChars cs

/-- A JSON string literal for `s`. -/
def quoteString (s : String) : String :=
  "\"" ++ escapeChars s.data ++ "\""

/-- Serialisation of a number (used only inside serialised table rows). -/
def numToString (m e : Int) : String :=
  if 0 ≤ e then toString (m * (10 : Int) ^ e.toNat)
  else toString m ++ "e" ++ toString e

mutual

/-- Model of JavaScript `JSON.stringify` (no replacer, no spacing). -/
def Json.stringify : Json → String
  | Json.null => "null"
  | Json.bool true => "true"
  | Json.bool false => "false"
  | Json.num m e => numToString m e
  | Json.str s => quoteString s
  | Json.arr xs => "[" ++ stringifyItems xs ++ "]"
  | Json.obj ms => "\x7b" ++ stringifyMembers ms ++ "\x7d"

/-- Comma-separated serialisation of array items. -/
def stringifyItems : List Json → String
  | [] => ""
  | [x] => Json.stringify x
  | x :: y :: xs => Json.stringify x ++ "," ++ stringifyItems (y :: xs)

/-- Comma-separated serialisation of object members. -/
def stringifyMembers : List (String × Json) → String
  | [] => ""
  | [kv] => quoteString kv.fst ++ ":" ++ Json.stringify kv.snd
  | kv :: kv2 :: ms =>
    quoteString kv.fst ++ ":" ++ Json.stringify kv.snd ++ "," ++ stringifyMembers (kv2 :: ms)

end

/-- Render classification of a message bubble. -/
inductive RenderKind where
  | plain : RenderKind
  | table : RenderKind
  deriving DecidableEq, Repr

/-- The `parsed` value computed by `ChatMessage.jsx` lines 38-54: non-`none`
exactly when the bubble renders the text as a table. -/
def parsedPayload (role : String) (text : String) : Option Json :=
  if role = "assistant" ∧ text ≠ "" then
    let trimmed := jsTrim text
    if trimmed.data.head? = some '\x7b' ∨ trimmed.data.head? = some '[' then
      match Json.parse trimmed with
      | some p =>
        if ¬ jsTruthy (getProp p "columns") ∨ ¬ jsTruthy (getProp p "rows") then none
        else some p
      | none => none
    else none
  else none

/-- Table/plain classification performed by `ChatMessage.jsx`. -/
def renderKind (role : String) (text : String) : RenderKind :=
  if (parsedPayload role text).isSome then RenderKind.table else RenderKind.plain

example : renderKind "assistant" "hello" = RenderKind.plain := rfl

example : renderKind "assistant" "\x7b\"columns\":[\"a\"],\"rows\":[\x7b\"a\":1\x7d]\x7d" = RenderKind.table := rfl

example : renderKind "assistant" "\x7b\"columns\":[],\"rows\":[]\x7d" = RenderKind.table := rfl

example : renderKind "assistant" "\x7b\"columns\": bad json" = RenderKind.plain := rfl

example : renderKind "user" "\x7b\"columns\":[\"a\"],\"rows\":[1]\x7d" = RenderKind.plain := rfl

example : renderKind "assistant" "\x7b\"rows\":[1]\x7d" = RenderKind.plain := rfl

namespace ChatWindow

/-- One chat of `App.jsx`: `\x7b id: null, title, messages \x7d`; `updateChat`
merges a patch into this record. -/
structure Chat where
  id : Option String
  title : String
  messages : List Message
  deriving DecidableEq, Repr

/-- Parsed body of a `POST /start` response. -/
structure StartResp where
  ok : Bool
  chat_id : Option String
  title : Option String
  messages : Option (List Message)
  bot : Option String
  error : Option String

/-- Parsed body of a `POST /chat/:id/reply` response. -/
structure ReplyResp where
  ok : Bool
  messages : Option (List Message)
  bot_text : Option String
  columns : Option (List String)
  rows : Option (List Json)
  error : Option String

/-- The transient placeholder appended by `appendThinking`. -/
def thinkingMsg : Message := Message.mk "assistant" "__thinking__"

/-- `removeThinking` of `ChatWindow.jsx`: filters out every message whose
text is `__thinking__`, regardless of role. -/
def removeThinkingList (msgs : List Message) : List Message :=
  msgs.filter (fun m => m.text != "__thinking__")

/-- `'Error: ' + (data.error || 'Unknown')` (empty strings are falsy). -/
def errorText (e : Option String) : String :=
  "Error: " ++ (match e with
    | some s => if s ≠ "" then s else "Unknown"
    | none => "Unknown")

/-- JavaScript `input.split(' ')`. -/
def splitOnSpace : List Char → List (List Char)
  | [] => [[]]
  | c :: cs =>
    if c = ' ' then [] :: splitOnSpace cs
    else
      match splitOnSpace cs with
      | [] => [[c]]
      | w :: ws => (c :: w) :: ws

/-- `currentInput.split(' ').slice(0,3).join(' ')`: the fallback title. -/
def defaultTitle (input : String) : String :=
  String.intercalate " " (((splitOnSpace input.data).take 3).map String.mk)

/-- The text of the extra assistant message built from `data.columns` and
`data.rows`: `JSON.stringify(\x7b columns, rows \x7d)`. -/
def tableText (cols : List String) (rows : List Json) : String :=
  Json.stringify (Json.obj [("columns", Json.arr (cols.map Json.str)), ("rows", Json.arr rows)])

/-- What one `send` turn produced: the chat record after the last
`updateChat`, which endpoint was called, and the id interpolated into the
`/chat/:id/reply` URL (when that endpoint was used). -/
structure SendOutput where
  chat : Chat
  calledStart : Bool
  calledReply : Bool
  replyUrlId : Option String

/-- The `send` handler of `ChatWindow.jsx`.  `chat` is the render-time prop
(the reads inside `appendThinking`/`removeThinking` use this same stale
value, as the closure does); each `updateChat` patch is merged into the
latest store value.  `startNet`/`replyNet` give the outcome of the one
network call the taken branch performs. -/
def send (chat : Chat) (input : String)
    (startNet : NetResult StartResp) (replyNet : NetResult ReplyResp) : SendOutput :=
  if jsTrim input = "" then SendOutput.mk chat false false none
  else
    let currentInput := input
    let userMsg : Message := Message.mk "user" currentInput
    let optimisticMessages := chat.messages ++ [userMsg]
    let c1 : Chat := { chat with messages := optimisticMessages }
    let c2 : Chat := { c1 with messages := chat.messages ++ [thinkingMsg] }
    if jsTruthyOptStr chat.id then
      match replyNet with
      | NetResult.ok data =>
        let c3 : Chat := { c2 with messages := removeThinkingList chat.messages }
        if data.ok then
          match data.messages with
          | some ms =>
            let finalMessages := ms ++
              (match data.columns, data.rows with
               | some cols, some rws => [Message.mk "assistant" (tableText cols rws)]
               | _, _ => [])
            SendOutput.mk { c3 with messages := finalMessages } false true chat.id
          | none =>
            let msgs1 := optimisticMessages ++
              (match data.bot_text with
               | some t => if t ≠ "" then [Message.mk "assistant" t] else []
               | none => [])
            let msgs2 := msgs1 ++
              (match data.columns, data.rows with
               | some cols, some rws => [Message.mk "assistant" (tableText cols rws)]
               | _, _ => [])
            SendOutput.mk { c3 with messages := msgs2 } false true chat.id
        else
          SendOutput.mk
            { c3 with messages := optimisticMessages ++ [Message.mk "assistant" (errorText data.error)] }
            false true chat.id
      | NetResult.err e =>
        let c3 : Chat := { c2 with messages := removeThinkingList chat.messages }
        SendOutput.mk
          { c3 with messages := optimisticMessages ++ [Message.mk "assistant" ("Network error: " ++ e)] }
          false true chat.id
    else
      match startNet with
      | NetResult.ok data =>
        let c3 : Chat := { c2 with messages := removeThinkingList chat.messages }
        if data.ok then
          let newTitle :=
            match data.title with
            | some t => if t ≠ "" then t else defaultTitle currentInput
            | none => defaultTitle currentInput
          let c4 : Chat :=
            { c3 with id := data.chat_id, title := newTitle,
                      messages := match data.messages with
                                  | some ms => ms
                                  | none => optimisticMessages }
          let c5 : Chat :=
            if data.messages.isNone ∧ jsTruthyOptStr data.bot then
              { c4 with messages := optimisticMessages ++ [Message.mk "assistant" (data.bot.getD "")] }
            else c4
          SendOutput.mk c5 true false none
        else
          SendOutput.mk
            { c3 with messages := optimisticMessages ++ [Message.mk "assistant" (errorText data.error)] }
            true false none
      | NetResult.err e =>
        let c3 : Chat := { c2 with messages := removeThinkingList chat.messages }
        SendOutput.mk
          { c3 with messages := optimisticMessages ++ [Message.mk "assistant" ("Network error: " ++ e)] }
          true false none

/-- The inputs of one turn: what the user typed and how the backend
answered whichever endpoint the turn used. -/
structure TurnInput where
  input : String
  startNet : NetResult StartResp
  replyNet : NetResult ReplyResp

/-- Run a sequence of turns against one chat, collecting every turn's
output. -/
def runTurns : Chat → List TurnInput → Chat × List SendOutput
  | chat, [] => (chat, [])
  | chat, t :: ts =>
    let o := send chat t.input t.startNet t.replyNet
    let r := runTurns o.chat ts
    (r.fst, o :: r.snd)

end ChatWindow

example :
    (ChatWindow.send (ChatWindow.Chat.mk none "t" []) "hello there world wide"
      (NetResult.ok (ChatWindow.StartResp.mk true (some "c7") none none (some "hi") none))
      (NetResult.err "unused")).chat =
    ChatWindow.Chat.mk (some "c7") "hello there world"
      [Message.mk "user" "hello there world wide", Message.mk "assistant" "hi"] := rfl

example :
    (ChatWindow.send (ChatWindow.Chat.mk (some "c") "t" []) "  " (NetResult.err "u")
      (NetResult.err "u")).chat.messages = [] := rfl

namespace AppMain

/-- Parsed body of a `POST /crawl` response; every field may be absent. -/
structure CrawlResp where
  knowledge_index : Option Json
  allowed_metrics : Option (List String)
  blocked_metrics : Option (List String)
  dataset_preview : Option (List Json)
  low_trust_present : Option Bool

/-- The `CrawlState` record built by `handleSend` (src/unnamed/part_001
lines 50-56): optional response fields default to `[]` via `|| []`, while
`knowledge_index` and `low_trust_present` are stored as-is (possibly
`undefined`). -/
structure CrawlState where
  knowledge_index : Option Json
  allowed_metrics : List String
  blocked_metrics : List String
  dataset_preview : List Json
  low_trust_present : Option Bool

/-- Parsed body of a `POST /chat/web` response. -/
structure ChatResp where
  mode : Option String
  response : String

/-- The clarification record installed on `mode = "CLARIFICATION_ONLY"`. -/
structure Clarification where
  message : String
  options : List String
  deriving DecidableEq, Repr

/-- The component state of the unnamed `App.tsx`. -/
structure AppState where
  messages : List Message
  input : String
  crawlStage : String
  crawlState : Option CrawlState
  clarification : Option Clarification

/-- The body sent to `POST /chat/web` (`\x7b user_query, ...state \x7d`). -/
structure ChatPayload where
  user_query : String
  knowledge_index : Option Json
  allowed_metrics : List String
  blocked_metrics : List String
  dataset_preview : List Json
  low_trust_present : Option Bool

/-- What one turn of the unnamed `App.tsx` produced.  `threw` records that
the `async` handler ended with an unhandled promise rejection (it has no
`try`/`catch`). -/
structure TurnResult where
  state : AppState
  crawlCalled : Bool
  chatCalled : Bool
  chatPayload : Option ChatPayload
  threw : Bool

/-- `handleSend` of src/unnamed/part_001: append the user message, clear
any pending clarification, crawl, install fresh crawl state, announce
extraction, chat, then either install a clarification (options taken from
this turn's `state.allowed_metrics`) or append the assistant response. -/
def handleSend (s : AppState) (query : String)
    (crawlNet : NetResult CrawlResp) (chatNet : NetResult ChatResp) : TurnResult :=
  let s1 := { s with messages := s.messages ++ [Message.mk "user" query] }
  let s2 := { s1 with clarification := none }
  let s3 := { s2 with crawlStage := "searching" }
  match crawlNet with
  | NetResult.err _ => TurnResult.mk s3 true false none true
  | NetResult.ok crawlRes =>
    let s4 := { s3 with crawlStage := "extracting" }
    let state : CrawlState :=
      CrawlState.mk crawlRes.knowledge_index (crawlRes.allowed_metrics.getD [])
        (crawlRes.blocked_metrics.getD []) (crawlRes.dataset_preview.getD [])
        crawlRes.low_trust_present
    let s5 := { s4 with crawlState := some state }
    let s6 := { s5 with crawlStage := "done" }
    let s7 := { s6 with messages :=
      s6.messages ++ [Message.mk "system" "Web data extracted. Evaluating whether I can answer…"] }
    let payload : ChatPayload :=
      ChatPayload.mk query state.knowledge_index state.allowed_metrics state.blocked_metrics
        state.dataset_preview state.low_trust_present
    match chatNet with
    | NetResult.err _ => TurnResult.mk s7 true true (some payload) true
    | NetResult.ok chatRes =>
      if chatRes.mode = some "CLARIFICATION_ONLY" then
        TurnResult.mk
          { s7 with clarification := some (Clarification.mk chatRes.response state.allowed_metrics) }
          true true (some payload) false
      else
        TurnResult.mk
          { s7 with messages := s7.messages ++ [Message.mk "assistant" chatRes.response] }
          true true (some payload) false

/-- The Enter-key / Send-button path of the unnamed `App.tsx`: guarded by
`input.trim()`, it starts `handleSend(input)` and then clears the input
box. -/
def uiSend (s : AppState) (crawlNet : NetResult CrawlResp) (chatNet : NetResult ChatResp) :
    TurnResult :=
  if jsTrim s.input ≠ "" then
    let r := handleSend s s.input crawlNet chatNet
    TurnResult.mk { r.state with input := "" } r.crawlCalled r.chatCalled r.chatPayload r.threw
  else TurnResult.mk s false false none false

/-- `handleClarificationSelect` of src/unnamed/part_001: synthesizes the
new query from the CURRENT input box content (not from the original
query) and starts a new turn. -/
def handleClarificationSelect (s : AppState) (metric : String)
    (crawlNet : NetResult CrawlResp) (chatNet : NetResult ChatResp) : TurnResult :=
  handleSend s (s.input ++ " by " ++ metric) crawlNet chatNet

end AppMain

namespace SessionStore

/-- The global `session` object of src/unnamed/part_000.  Fields are
`Option`-typed because the assignments in src/unnamed/part_004 store the
raw (possibly `undefined`) crawl response fields into them. -/
structure WebSession where
  knowledgeIndex : Option Json
  allowedMetrics : Option (List String)
  blockedMetrics : Option (List String)
  datasetPreview : Option (List Json)
  lowTrust : Option Bool

/-- The initial `session` value of src/unnamed/part_000. -/
def initialSession : WebSession :=
  WebSession.mk none (some []) (some []) (some []) (some false)

/-- The body sent to `chatWeb` by src/unnamed/part_004 (note the literal
empty `blocked_metrics`). -/
structure ChatWebPayload where
  user_query : String
  knowledge_index : Option Json
  allowed_metrics : Option (List String)
  blocked_metrics : List String
  low_trust_present : Option Bool
  dataset_preview : Option (List Json)

/-- What one turn of the src/unnamed/part_004 `ChatWindow` produced. -/
structure Turn04Result where
  session : WebSession
  messages : List Message
  chatCalled : Bool
  payload : Option ChatWebPayload
  threw : Bool

/-- `handleSend` of src/unnamed/part_004: append the user message, crawl,
append the status message, assign four of the five session fields from
the crawl result (`blockedMetrics` is never written), then chat with a
hard-coded empty `blocked_metrics`. -/
def handleSend (sess : WebSession) (messages : List Message) (input : String)
    (crawlNet : NetResult AppMain.CrawlResp) (chatNet : NetResult AppMain.ChatResp) :
    Turn04Result :=
  let m1 := messages ++ [Message.mk "user" input]
  match crawlNet with
  | NetResult.err _ => Turn04Result.mk sess m1 false none true
  | NetResult.ok crawlResult =>
    let m2 := m1 ++ [Message.mk "system" "Searching the web…"]
    let sess2 : WebSession :=
      { sess with
        knowledgeIndex := crawlResult.knowledge_index,
        allowedMetrics := crawlResult.allowed_metrics,
        datasetPreview := crawlResult.dataset_preview,
        lowTrust := crawlResult.low_trust_present }
    let payload : ChatWebPayload :=
      ChatWebPayload.mk input sess2.knowledgeIndex sess2.allowedMetrics []
        sess2.lowTrust sess2.datasetPreview
    match chatNet with
    | NetResult.err _ => Turn04Result.mk sess2 m2 true (some payload) true
    | NetResult.ok chatResult =>
      Turn04Result.mk sess2 (m2 ++ [Message.mk "assistant" chatResult.response]) true
        (some payload) false

end SessionStore

example :
    ChatWindow.tableText ["a"] [Json.obj [("a", Json.str "v")]] =
      "\x7b\"columns\":[\"a\"],\"rows\":[\x7b\"a\":\"v\"\x7d]\x7d" := rfl

/-- If `a` starts with a character that `t` does not start with, then no
extension of `a` equals `t`. -/
theorem append_ne_of_head (a b t : String) (c : Char) (rest : List Char)
    (ha : a.data = c :: rest) (ht : t.data.head? ≠ some c) : a ++ b ≠ t := by
  intro h
  apply ht
  have h2 := congrArg String.data h
  rw [String.data_append, ha, List.cons_append] at h2
  rw [← h2]
  rfl

/-- Texts produced by the `catch` branch never collide with the
placeholder text. -/
theorem networkError_ne_thinking (e : String) :
    ("Network error: " ++ e) ≠ "__thinking__" :=
  append_ne_of_head _ _ _ 'N' _ rfl (by decide)

/-- Texts produced by the backend-error branch never collide with the
placeholder text. -/
theorem errorText_ne_thinking (o : Option String) :
    ChatWindow.errorText o ≠ "__thinking__" :=
  append_ne_of_head _ _ _ 'E' _ rfl (by decide)

/-- A serialised object starts with a brace, hence is never the
placeholder text. -/
theorem stringify_obj_ne_thinking (ms : List (String × Json)) :
    Json.stringify (Json.obj ms) ≠ "__thinking__" := by
  have h : Json.stringify (Json.obj ms) = ("\x7b" ++ stringifyMembers ms) ++ "\x7d" := rfl
  rw [h]
  exact append_ne_of_head _ _ _ '\x7b' _ (by rw [String.data_append]; rfl) (by decide)

/-- Serialised table payloads never collide with the placeholder text. -/
theorem tableText_ne_thinking (cols : List String) (rows : List Json) :
    ChatWindow.tableText cols rows ≠ "__thinking__" :=
  stringify_obj_ne_thinking _

/-- `true` iff no message of the list is an assistant message carrying the
placeholder text. -/
def noThinkingB (msgs : List Message) : Bool :=
  msgs.all (fun m => !(m.role == "assistant" && m.text == "__thinking__"))

theorem noThinkingB_append (a b : List Message)
    (ha : noThinkingB a = true) (hb : noThinkingB b = true) :
    noThinkingB (a ++ b) = true := by
  simp only [noThinkingB, List.all_append, Bool.and_eq_true]
  exact ⟨ha, hb⟩

theorem noThinkingB_single (r t : String) (h : r = "assistant" → t ≠ "__thinking__") :
    noThinkingB [Message.mk r t] = true := by
  simp only [noThinkingB, List.all_cons, List.all_nil, Bool.and_true, Bool.not_eq_eq_eq_not,
    Bool.not_true, Bool.and_eq_false_imp, beq_eq_false_iff_ne, ne_eq, beq_iff_eq]
  intro hr
  exact h hr

def c1ex_chat : ChatWindow.Chat := ChatWindow.Chat.mk (some "c1") "t" []

def c1ex_resp : ChatWindow.ReplyResp :=
  ChatWindow.ReplyResp.mk true (some [Message.mk "assistant" "Here is the ranking."]) none
    (some ["rank"]) (some [Json.obj [("rank", Json.num 1 0)]]) none

/-- C1, counterexample: a successful reply whose body carries both a full
`messages` history and separate `columns`/`rows` data does NOT leave the
session message list equal to that history — `send` appends an extra
assistant table message to it. -/
theorem c1_counterexample :
    c1ex_resp.messages = some [Message.mk "assistant" "Here is the ranking."] ∧
    (ChatWindow.send c1ex_chat "top banks" (NetResult.err "unused")
        (NetResult.ok c1ex_resp)).chat.messages ≠
      [Message.mk "assistant" "Here is the ranking."] := by
  exact ⟨rfl, by decide⟩

/-- C1, amended: for a successful reply returning a full history `ms`, the
final session message list is `ms` itself when `columns` and `rows` are
not both present, and `ms` with one extra assistant table message
appended when both are present (the returned history is never checked
for an existing table representation). -/
theorem c1_reply_backend_history (chat : ChatWindow.Chat) (input : String)
    (sn : NetResult ChatWindow.StartResp) (d : ChatWindow.ReplyResp) (ms : List Message)
    (hid : jsTruthyOptStr chat.id = true) (hin : jsTrim input ≠ "")
    (hok : d.ok = true) (hms : d.messages = some ms) :
    (ChatWindow.send chat input sn (NetResult.ok d)).chat.messages =
      ms ++ (match d.columns, d.rows with
             | some cols, some rws => [Message.mk "assistant" (ChatWindow.tableText cols rws)]
             | _, _ => []) := by
  simp [ChatWindow.send, hid, hin, hok, hms]

/-- Witness for `c1_reply_backend_history`: concrete reply with a history
and no table data leaves exactly the backend history. -/
theorem c1_reply_backend_history_witness :
    (ChatWindow.send c1ex_chat "q" (NetResult.err "u")
        (NetResult.ok (ChatWindow.ReplyResp.mk true (some [Message.mk "assistant" "done"])
          none none none none))).chat.messages = [Message.mk "assistant" "done"] :=
  c1_reply_backend_history c1ex_chat "q" (NetResult.err "u") _ _ (by decide) (by decide) rfl rfl

/-- No assistant message of the list carries the placeholder text. -/
def NoThinking (msgs : List Message) : Prop :=
  ∀ m ∈ msgs, m.role = "assistant" → m.text ≠ "__thinking__"

instance (msgs : List Message) : Decidable (NoThinking msgs) := by
  unfold NoThinking
  infer_instance

theorem NoThinking.append {a b : List Message} (ha : NoThinking a) (hb : NoThinking b) :
    NoThinking (a ++ b) := by
  intro m hm
  rcases List.mem_append.mp hm with h | h
  · exact ha m h
  · exact hb m h

theorem NoThinking.single {r t : String} (h : r = "assistant" → t ≠ "__thinking__") :
    NoThinking [Message.mk r t] := by
  intro m hm
  rw [List.mem_singleton] at hm
  subst hm
  exact h

theorem NoThinking.cons {m : Message} {l : List Message}
    (h : m.role = "assistant" → m.text ≠ "__thinking__") (hl : NoThinking l) :
    NoThinking (m :: l) := by
  intro x hx
  rcases List.mem_cons.mp hx with rfl | hx
  · exact h
  · exact hl x hx

theorem NoThinking.nil : NoThinking [] :=
  fun m hm => absurd hm (List.not_mem_nil m)

theorem NoThinking.user (t : String) : NoThinking [Message.mk "user" t] :=
  NoThinking.single (fun h => absurd h (by decide))

/-- The start response neither echoes an assistant placeholder in its
history nor sends `__thinking__` as the bot text. -/
def StartClean : NetResult ChatWindow.StartResp → Prop
  | NetResult.err _ => True
  | NetResult.ok d =>
    (∀ ms, d.messages = some ms → NoThinking ms) ∧ d.bot ≠ some "__thinking__"

/-- The reply response neither echoes an assistant placeholder in its
history nor sends `__thinking__` as the bot text. -/
def ReplyClean : NetResult ChatWindow.ReplyResp → Prop
  | NetResult.err _ => True
  | NetResult.ok d =>
    (∀ ms, d.messages = some ms → NoThinking ms) ∧ d.bot_text ≠ some "__thinking__"

/-- C4: whether a turn resolves successfully or fails, the final committed
message list contains no assistant `__thinking__` placeholder, provided
the list the turn started from and the backend-supplied texts contain
none themselves. -/
theorem c4_placeholder_absent_in_final (chat : ChatWindow.Chat) (input : String)
    (sn : NetResult ChatWindow.StartResp) (rn : NetResult ChatWindow.ReplyResp)
    (h0 : NoThinking chat.messages) (hs : StartClean sn) (hr : ReplyClean rn) :
    NoThinking (ChatWindow.send chat input sn rn).chat.messages := by
  by_cases htrim : jsTrim input = ""
  · simpa [ChatWindow.send, htrim] using h0
  have huser := NoThinking.user input
  by_cases hid : jsTruthyOptStr chat.id = true
  · -- reply path
    cases rn with
    | err e =>
      simp only [ChatWindow.send, htrim, hid, if_false, if_true, ite_true, ite_false]
      exact (h0.append huser).append
        (NoThinking.single (fun _ => networkError_ne_thinking e))
    | ok d =>
      obtain ⟨hr1, hr2⟩ := hr
      by_cases hok : d.ok = true
      · cases hmsg : d.messages with
        | some ms =>
          simp only [ChatWindow.send, htrim, hid, hok, hmsg, if_false, if_true, ite_true,
            ite_false, eq_self_iff_true]
          refine (hr1 ms hmsg).append ?_
          cases d.columns with
          | none => exact NoThinking.nil
          | some cols =>
            cases d.rows with
            | none => exact NoThinking.nil
            | some rws => exact NoThinking.single (fun _ => tableText_ne_thinking cols rws)
        | none =>
          have hbotpart : NoThinking
              (match d.bot_text with
               | some t => if t ≠ "" then [Message.mk "assistant" t] else []
               | none => []) := by
            cases hbt : d.bot_text with
            | none => exact NoThinking.nil
            | some t =>
              show NoThinking (if t ≠ "" then [Message.mk "assistant" t] else [])
              by_cases ht : t ≠ ""
              · rw [if_pos ht]
                refine NoThinking.single (fun _ hteq => ?_)
                rw [hbt, hteq] at hr2
                exact hr2 rfl
              · rw [if_neg ht]
                exact NoThinking.nil
          have htabpart : NoThinking
              (match d.columns, d.rows with
               | some cols, some rws => [Message.mk "assistant" (ChatWindow.tableText cols rws)]
               | _, _ => []) := by
            cases d.columns with
            | none => exact NoThinking.nil
            | some cols =>
              cases d.rows with
              | none => exact NoThinking.nil
              | some rws =>
                exact NoThinking.single (fun _ => tableText_ne_thinking cols rws)
          simp only [ChatWindow.send, htrim, hid, hok, hmsg, if_false, if_true, ite_true,
            ite_false, eq_self_iff_true]
          exact ((h0.append huser).append hbotpart).append htabpart
      · simp only [ChatWindow.send, htrim, hid, hok, if_false, if_true, ite_true, ite_false]
        exact (h0.append huser).append
          (NoThinking.single (fun _ => errorText_ne_thinking d.error))
  · -- start path
    cases sn with
    | err e =>
      simp only [ChatWindow.send, htrim, hid, if_false, if_true, ite_true, ite_false]
      exact (h0.append huser).append
        (NoThinking.single (fun _ => networkError_ne_thinking e))
    | ok d =>
      obtain ⟨hs1, hs2⟩ := hs
      by_cases hok : d.ok = true
      · cases hmsg : d.messages with
        | some ms =>
          simp only [ChatWindow.send, htrim, hid, hok, hmsg, Option.isNone_some, if_false,
            if_true, ite_true, ite_false, eq_self_iff_true, false_and, and_true, true_and]
          exact hs1 ms hmsg
        | none =>
          by_cases hbot : jsTruthyOptStr d.bot = true
          · simp only [ChatWindow.send, htrim, hid, hok, hmsg, hbot, Option.isNone_none,
              if_false, if_true, ite_true, ite_false, eq_self_iff_true, and_self, true_and,
              and_true]
            refine (h0.append huser).append (NoThinking.single (fun _ hteq => ?_))
            cases hb : d.bot with
            | none =>
              rw [hb] at hbot
              exact absurd hbot (by decide)
            | some t =>
              rw [hb] at hteq hs2
              simp only [Option.getD_some] at hteq
              rw [hteq] at hs2
              exact hs2 rfl
          · simp only [ChatWindow.send, htrim, hid, hok, hmsg, hbot, Option.isNone_none,
              if_false, if_true, ite_true, ite_false, eq_self_iff_true, true_and, and_true,
              and_false, false_and]
            exact h0.append huser
      · simp only [ChatWindow.send, htrim, hid, hok, if_false, if_true, ite_true, ite_false]
        exact (h0.append huser).append
          (NoThinking.single (fun _ => errorText_ne_thinking d.error))

/-- Witness for `c4_placeholder_absent_in_final`: a concrete failed start
turn ends with no placeholder in the list. -/
theorem c4_placeholder_absent_in_final_witness :
    NoThinking (ChatWindow.send (ChatWindow.Chat.mk none "t" []) "hi"
      (NetResult.err "Failed to fetch") (NetResult.err "unused")).chat.messages :=
  c4_placeholder_absent_in_final (ChatWindow.Chat.mk none "t" []) "hi"
    (NetResult.err "Failed to fetch") (NetResult.err "unused") (by decide) trivial trivial

/-- A turn against a chat that already has an id: the id is kept, the
start endpoint is not used, and any reply call addresses that id. -/
theorem send_id_of_truthy (chat : ChatWindow.Chat) (input : String)
    (sn : NetResult ChatWindow.StartResp) (rn : NetResult ChatWindow.ReplyResp)
    (hid : jsTruthyOptStr chat.id = true) :
    (ChatWindow.send chat input sn rn).chat.id = chat.id ∧
    (ChatWindow.send chat input sn rn).calledStart = false ∧
    ((ChatWindow.send chat input sn rn).replyUrlId = chat.id ∨
     (ChatWindow.send chat input sn rn).replyUrlId = none) := by
  unfold ChatWindow.send
  repeat' split
  all_goals first
    | exact ⟨rfl, rfl, Or.inr rfl⟩
    | exact ⟨rfl, rfl, Or.inl rfl⟩

/-- A turn against a chat without an id: the id either stays as it was or
is set to the backend-provided `chat_id` of a successful start call. -/
theorem send_id_of_absent (chat : ChatWindow.Chat) (input : String)
    (sn : NetResult ChatWindow.StartResp) (rn : NetResult ChatWindow.ReplyResp)
    (_hid : jsTruthyOptStr chat.id = false) :
    (ChatWindow.send chat input sn rn).chat.id = chat.id ∨
    ∃ d, sn = NetResult.ok d ∧ d.ok = true ∧
      (ChatWindow.send chat input sn rn).chat.id = d.chat_id := by
  unfold ChatWindow.send
  repeat' split
  all_goals first
    | exact Or.inl rfl
    | exact Or.inr ⟨_, rfl, by assumption, rfl⟩

/-- Across any sequence of turns, a chat that has an id keeps it. -/
theorem runTurns_id (turns : List ChatWindow.TurnInput) (chat : ChatWindow.Chat)
    (h : jsTruthyOptStr chat.id = true) :
    (ChatWindow.runTurns chat turns).fst.id = chat.id := by
  induction turns generalizing chat with
  | nil => rfl
  | cons t ts ih =>
    have hstep := send_id_of_truthy chat t.input t.startNet t.replyNet h
    have htruthy2 : jsTruthyOptStr (ChatWindow.send chat t.input t.startNet t.replyNet).chat.id
        = true := by
      rw [hstep.1]
      exact h
    calc (ChatWindow.runTurns chat (t :: ts)).fst.id
        = (ChatWindow.runTurns (ChatWindow.send chat t.input t.startNet t.replyNet).chat
            ts).fst.id := rfl
      _ = (ChatWindow.send chat t.input t.startNet t.replyNet).chat.id := ih _ htruthy2
      _ = chat.id := hstep.1

/-- C5: the session id is assigned at most once — a chat with an id keeps
it unchanged through every turn and every sequence of turns, never calls
the start endpoint again and addresses the reply endpoint with that id;
a chat without an id only acquires one from the `chat_id` of a
successful start response. -/
theorem c5_session_id_invariant :
    (∀ (chat : ChatWindow.Chat) (input : String) (sn : NetResult ChatWindow.StartResp)
       (rn : NetResult ChatWindow.ReplyResp), jsTruthyOptStr chat.id = true →
       (ChatWindow.send chat input sn rn).chat.id = chat.id ∧
       (ChatWindow.send chat input sn rn).calledStart = false ∧
       ((ChatWindow.send chat input sn rn).replyUrlId = chat.id ∨
        (ChatWindow.send chat input sn rn).replyUrlId = none)) ∧
    (∀ (chat : ChatWindow.Chat) (input : String) (sn : NetResult ChatWindow.StartResp)
       (rn : NetResult ChatWindow.ReplyResp), jsTruthyOptStr chat.id = false →
       (ChatWindow.send chat input sn rn).chat.id = chat.id ∨
       ∃ d, sn = NetResult.ok d ∧ d.ok = true ∧
         (ChatWindow.send chat input sn rn).chat.id = d.chat_id) ∧
    (∀ (turns : List ChatWindow.TurnInput) (chat : ChatWindow.Chat),
       jsTruthyOptStr chat.id = true → (ChatWindow.runTurns chat turns).fst.id = chat.id) :=
  ⟨fun chat input sn rn hid => send_id_of_truthy chat input sn rn hid,
   fun chat input sn rn hid => send_id_of_absent chat input sn rn hid,
   fun turns chat h => runTurns_id turns chat h⟩

/-- Witness for `c5_session_id_invariant`: one concrete turn against a
chat with id `"abc"` leaves the id `"abc"`. -/
theorem c5_session_id_invariant_witness :
    (ChatWindow.runTurns (ChatWindow.Chat.mk (some "abc") "t" [])
      [ChatWindow.TurnInput.mk "q" (NetResult.err "u") (NetResult.err "v")]).fst.id =
      some "abc" :=
  c5_session_id_invariant.2.2 [ChatWindow.TurnInput.mk "q" (NetResult.err "u") (NetResult.err "v")]
    (ChatWindow.Chat.mk (some "abc") "t" []) (by decide)

/-- C2: a `converse` response with mode `CLARIFICATION_ONLY` installs a
clarification whose options are exactly the `allowed_metrics` of the
crawl artifacts produced this turn (defaulted `[]`), matching the
artifacts stored in the state and independent of the response text. -/
theorem c2_clarification_options_from_artifacts (s : AppMain.AppState) (query : String)
    (cr : AppMain.CrawlResp) (ch : AppMain.ChatResp)
    (hmode : ch.mode = some "CLARIFICATION_ONLY") :
    (AppMain.handleSend s query (NetResult.ok cr) (NetResult.ok ch)).state.clarification =
      some (AppMain.Clarification.mk ch.response (cr.allowed_metrics.getD [])) ∧
    ((AppMain.handleSend s query (NetResult.ok cr) (NetResult.ok ch)).state.crawlState).map
      AppMain.CrawlState.allowed_metrics = some (cr.allowed_metrics.getD []) := by
  constructor
  · simp [AppMain.handleSend, hmode]
  · simp [AppMain.handleSend, hmode]

/-- Witness for `c2_clarification_options_from_artifacts`: options are
`["country", "sector"]`, ignoring the options named in the text. -/
theorem c2_clarification_options_from_artifacts_witness :
    (AppMain.handleSend (AppMain.AppState.mk [] "" "idle" none none) "revenue ranking"
      (NetResult.ok (AppMain.CrawlResp.mk none (some ["country", "sector"]) none none
        (some false)))
      (NetResult.ok (AppMain.ChatResp.mk (some "CLARIFICATION_ONLY")
        "Which dimension? Options: population, gdp"))).state.clarification =
      some (AppMain.Clarification.mk "Which dimension? Options: population, gdp"
        ["country", "sector"]) :=
  (c2_clarification_options_from_artifacts (AppMain.AppState.mk [] "" "idle" none none)
    "revenue ranking"
    (AppMain.CrawlResp.mk none (some ["country", "sector"]) none none (some false))
    (AppMain.ChatResp.mk (some "CLARIFICATION_ONLY") "Which dimension? Options: population, gdp")
    rfl).1

def c3_state0 : AppMain.AppState := AppMain.AppState.mk [] "revenue ranking" "idle" none none

def c3_crawl : AppMain.CrawlResp :=
  AppMain.CrawlResp.mk none (some ["country", "sector"]) (some []) (some []) (some false)

def c3_chatClarify : AppMain.ChatResp :=
  AppMain.ChatResp.mk (some "CLARIFICATION_ONLY") "Which dimension?"

def c3_chatAnswer : AppMain.ChatResp :=
  AppMain.ChatResp.mk (some "RESPONSE") "Here is the ranking by country."

/-- The state after the user sends "revenue ranking" (the UI clears the
input box) and the backend asks for clarification. -/
def c3_afterSend : AppMain.TurnResult :=
  AppMain.uiSend c3_state0 (NetResult.ok c3_crawl) (NetResult.ok c3_chatClarify)

/-- The turn started by clicking the "country" clarification option. -/
def c3_afterSelect : AppMain.TurnResult :=
  AppMain.handleClarificationSelect c3_afterSend.state "country" (NetResult.ok c3_crawl)
    (NetResult.ok c3_chatAnswer)

/-- A clarification selection whose new turn fails at the crawl call. -/
def c3_afterSelectFail : AppMain.TurnResult :=
  AppMain.handleClarificationSelect c3_afterSend.state "country" (NetResult.err "down")
    (NetResult.ok c3_chatAnswer)

/-- C3: the synthesized clarification query is built from the CURRENT
input box content, which the UI cleared when the original turn was sent —
so selecting "country" after "revenue ranking" starts a turn with query
`" by country"`, not `"revenue ranking by country"`.  The pending
clarification is indeed cleared as soon as the new turn starts, even when
that turn fails. -/
theorem c3_clarification_query_bug :
    c3_afterSend.state.input = "" ∧
    c3_afterSend.state.clarification =
      some (AppMain.Clarification.mk "Which dimension?" ["country", "sector"]) ∧
    c3_afterSelect.state.messages[2]? = some (Message.mk "user" " by country") ∧
    " by country" ≠ "revenue ranking by country" ∧
    c3_afterSelect.state.clarification = none ∧
    c3_afterSelectFail.state.clarification = none := by
  decide

def c6_result : AppMain.TurnResult :=
  AppMain.handleSend (AppMain.AppState.mk [] "" "idle" none none) "top banks in india"
    (NetResult.err "Failed to fetch") (NetResult.ok (AppMain.ChatResp.mk (some "RESPONSE") "ok"))

/-- C6: when the crawl call fails with a transport error no chat call is
issued (as the claim says), but NO error message is appended either — the
handler has no try/catch, the rejection escapes unhandled and the crawl
stage is left stuck at "searching". -/
theorem c6_crawl_failure_no_error_message :
    c6_result.chatCalled = false ∧
    c6_result.state.messages = [Message.mk "user" "top banks in india"] ∧
    c6_result.state.crawlStage = "searching" ∧
    c6_result.threw = true := by
  decide

/-- C7, counterexample: the text `'\x7b"columns":[],"rows":[]\x7d'` is valid
JSON whose `columns` and `rows` are EMPTY, yet the code classifies it as a
table (empty arrays are truthy in JavaScript), where the claim demands
`plain` for empty columns/rows. -/
theorem c7_counterexample :
    renderKind "assistant" "\x7b\"columns\":[],\"rows\":[]\x7d" = RenderKind.table ∧
    Json.parse (jsTrim "\x7b\"columns\":[],\"rows\":[]\x7d") =
      some (Json.obj [("columns", Json.arr []), ("rows", Json.arr [])]) :=
  ⟨rfl, rfl⟩

/-- C7, amended: a message is classified `table` exactly when the role is
assistant, the text is non-empty, its trimmed form starts with a brace or
bracket, it parses as JSON, and the parsed value's `columns` and `rows`
properties are both JavaScript-truthy — empty arrays included.  Malformed
JSON and missing or falsy properties degrade to `plain`. -/
theorem c7_table_classification :
    (∀ role text, Json.parse (jsTrim text) = none →
       renderKind role text = RenderKind.plain) ∧
    (∀ role text p, Json.parse (jsTrim text) = some p →
       jsTruthy (getProp p "columns") = false ∨ jsTruthy (getProp p "rows") = false →
       renderKind role text = RenderKind.plain) ∧
    (∀ role text p, role = "assistant" → text ≠ "" →
       ((jsTrim text).data.head? = some '\x7b' ∨ (jsTrim text).data.head? = some '[') →
       Json.parse (jsTrim text) = some p →
       jsTruthy (getProp p "columns") = true → jsTruthy (getProp p "rows") = true →
       renderKind role text = RenderKind.table) := by
  refine ⟨?_, ?_, ?_⟩
  · intro role text hp
    simp [renderKind, parsedPayload, hp, ite_self]
  · intro role text p hp hfalse
    rcases hfalse with hf | hf
    · simp [renderKind, parsedPayload, hp, hf, ite_self]
    · simp [renderKind, parsedPayload, hp, hf, ite_self]
  · intro role text p hrole htext hhead hp hcols hrows
    simp [renderKind, parsedPayload, hrole, htext, hhead, hp, hcols, hrows]

/-- Witness for `c7_table_classification`: a concrete well-formed table
payload is classified `table`. -/
theorem c7_table_classification_witness :
    renderKind "assistant" "\x7b\"columns\":[\"a\"],\"rows\":[\x7b\"a\":1\x7d]\x7d" =
      RenderKind.table :=
  c7_table_classification.2.2 "assistant" "\x7b\"columns\":[\"a\"],\"rows\":[\x7b\"a\":1\x7d]\x7d"
    (Json.obj [("columns", Json.arr [Json.str "a"]),
      ("rows", Json.arr [Json.obj [("a", Json.num 1 0)]])])
    rfl (by decide) (Or.inl rfl) rfl rfl rfl

/-- After a successful crawl, the unnamed `App.tsx` always installs a
fresh `CrawlState` computed from the response alone (with `|| []`
defaults) and always reaches the chat call. -/
theorem handleSend_crawl_ok (s : AppMain.AppState) (q : String) (cr : AppMain.CrawlResp)
    (chn : NetResult AppMain.ChatResp) :
    (AppMain.handleSend s q (NetResult.ok cr) chn).state.crawlState =
      some (AppMain.CrawlState.mk cr.knowledge_index (cr.allowed_metrics.getD [])
        (cr.blocked_metrics.getD []) (cr.dataset_preview.getD []) cr.low_trust_present) ∧
    (AppMain.handleSend s q (NetResult.ok cr) chn).chatCalled = true := by
  cases chn with
  | err e => exact ⟨rfl, rfl⟩
  | ok c =>
    by_cases hm : c.mode = some "CLARIFICATION_ONLY"
    · constructor
      · simp [AppMain.handleSend, hm]
      · simp [AppMain.handleSend, hm]
    · constructor
      · simp [AppMain.handleSend, hm]
      · simp [AppMain.handleSend, hm]

/-- After a successful crawl, the src/unnamed/part_004 variant stores the
raw response fields (no defaults) into four of the session's five fields,
keeping `blockedMetrics` untouched, and always reaches the chat call. -/
theorem handleSend04_crawl_ok (sess : SessionStore.WebSession) (msgs : List Message)
    (input : String) (cr : AppMain.CrawlResp) (chn : NetResult AppMain.ChatResp) :
    (SessionStore.handleSend sess msgs input (NetResult.ok cr) chn).session =
      SessionStore.WebSession.mk cr.knowledge_index cr.allowed_metrics sess.blockedMetrics
        cr.dataset_preview cr.low_trust_present ∧
    (SessionStore.handleSend sess msgs input (NetResult.ok cr) chn).chatCalled = true := by
  cases chn with
  | err e => exact ⟨rfl, rfl⟩
  | ok c => exact ⟨rfl, rfl⟩

def c8_crawlOmit : AppMain.CrawlResp :=
  AppMain.CrawlResp.mk (some (Json.str "ki")) none (some ["secret"]) (some []) (some false)

/-- C8, counterexample: in the src/unnamed/part_004 variant a crawl
response omitting `allowed_metrics` installs `undefined` (not the empty
set) as the session's `allowedMetrics`; the turn does still proceed. -/
theorem c8_counterexample :
    (SessionStore.handleSend SessionStore.initialSession [] "top firms"
        (NetResult.ok c8_crawlOmit)
        (NetResult.ok (AppMain.ChatResp.mk none "resp"))).session.allowedMetrics = none ∧
    (none : Option (List String)) ≠ some [] ∧
    (SessionStore.handleSend SessionStore.initialSession [] "top firms"
        (NetResult.ok c8_crawlOmit)
        (NetResult.ok (AppMain.ChatResp.mk none "resp"))).chatCalled = true := by
  exact ⟨rfl, by decide, rfl⟩

/-- C8, amended: in the main orchestrator a crawl response omitting
`allowed_metrics` yields an empty metric set (and `blocked_metrics` and
`dataset_preview` likewise default when absent) and the turn proceeds to
the chat call; in the part_004 variant no default is applied — the absent
field is installed as `undefined` — though the turn still proceeds. -/
theorem c8_absent_metrics_defaults (s : AppMain.AppState) (q : String)
    (cr : AppMain.CrawlResp) (chn : NetResult AppMain.ChatResp)
    (sess : SessionStore.WebSession) (msgs : List Message)
    (hA : cr.allowed_metrics = none) :
    ((AppMain.handleSend s q (NetResult.ok cr) chn).state.crawlState.map
        AppMain.CrawlState.allowed_metrics = some [] ∧
     (AppMain.handleSend s q (NetResult.ok cr) chn).state.crawlState.map
        AppMain.CrawlState.blocked_metrics = some (cr.blocked_metrics.getD []) ∧
     (AppMain.handleSend s q (NetResult.ok cr) chn).state.crawlState.map
        AppMain.CrawlState.dataset_preview = some (cr.dataset_preview.getD []) ∧
     (AppMain.handleSend s q (NetResult.ok cr) chn).chatCalled = true) ∧
    ((SessionStore.handleSend sess msgs q (NetResult.ok cr) chn).session.allowedMetrics = none ∧
     (SessionStore.handleSend sess msgs q (NetResult.ok cr) chn).chatCalled = true) := by
  obtain ⟨hA1, hA2⟩ := handleSend_crawl_ok s q cr chn
  obtain ⟨hS1, hS2⟩ := handleSend04_crawl_ok sess msgs q cr chn
  refine ⟨⟨?_, ?_, ?_, hA2⟩, ?_, hS2⟩
  · rw [hA1]
    simp [hA]
  · rw [hA1]
    rfl
  · rw [hA1]
    rfl
  · rw [hS1, hA]

/-- Witness for `c8_absent_metrics_defaults` at a concrete response with
`allowed_metrics` absent. -/
theorem c8_absent_metrics_defaults_witness :
    ((AppMain.handleSend (AppMain.AppState.mk [] "" "idle" none none) "top firms"
        (NetResult.ok c8_crawlOmit)
        (NetResult.ok (AppMain.ChatResp.mk (some "RESPONSE") "r"))).state.crawlState.map
      AppMain.CrawlState.allowed_metrics = some []) ∧
    ((SessionStore.handleSend SessionStore.initialSession [] "top firms"
        (NetResult.ok c8_crawlOmit)
        (NetResult.ok (AppMain.ChatResp.mk (some "RESPONSE") "r"))).session.allowedMetrics =
      none) := by
  have h := c8_absent_metrics_defaults (AppMain.AppState.mk [] "" "idle" none none) "top firms"
    c8_crawlOmit (NetResult.ok (AppMain.ChatResp.mk (some "RESPONSE") "r"))
    SessionStore.initialSession [] rfl
  exact ⟨h.1.1, h.2.1⟩

def c9_crawl : AppMain.CrawlResp :=
  AppMain.CrawlResp.mk (some (Json.str "k2")) (some ["metricA"]) (some ["secret"]) (some [])
    (some true)

/-- C9, counterexample: in the src/unnamed/part_004 variant the session's
`blockedMetrics` is NOT replaced by the crawl response's
`blocked_metrics` — it keeps its previous value (the initial `[]`), so
not every artifact field is fully replaced by that crawl's values. -/
theorem c9_counterexample :
    (SessionStore.handleSend SessionStore.initialSession [] "q" (NetResult.ok c9_crawl)
        (NetResult.ok (AppMain.ChatResp.mk none "r"))).session.blockedMetrics = some [] ∧
    c9_crawl.blocked_metrics = some ["secret"] ∧
    (some ([] : List String)) ≠ some ["secret"] := by
  exact ⟨rfl, rfl, by decide⟩

/-- C9, amended: in the main orchestrator every field of the crawl
artifacts is fully replaced by values computed from that crawl's response
alone; in the part_004 variant only `knowledgeIndex`, `allowedMetrics`,
`datasetPreview` and `lowTrust` are replaced, while `blockedMetrics`
retains whatever the session held before (and the chat call is given a
literal empty `blocked_metrics`). -/
theorem c9_artifacts_replacement (s : AppMain.AppState) (q : String) (cr : AppMain.CrawlResp)
    (chn : NetResult AppMain.ChatResp) (sess : SessionStore.WebSession) (msgs : List Message) :
    ((AppMain.handleSend s q (NetResult.ok cr) chn).state.crawlState =
      some (AppMain.CrawlState.mk cr.knowledge_index (cr.allowed_metrics.getD [])
        (cr.blocked_metrics.getD []) (cr.dataset_preview.getD []) cr.low_trust_present)) ∧
    ((SessionStore.handleSend sess msgs q (NetResult.ok cr) chn).session =
      SessionStore.WebSession.mk cr.knowledge_index cr.allowed_metrics sess.blockedMetrics
        cr.dataset_preview cr.low_trust_present) ∧
    ((SessionStore.handleSend sess msgs q (NetResult.ok cr) chn).payload.map
      SessionStore.ChatWebPayload.blocked_metrics = some []) := by
  refine ⟨(handleSend_crawl_ok s q cr chn).1, (handleSend04_crawl_ok sess msgs q cr chn).1, ?_⟩
  cases chn with
  | err e => rfl
  | ok c => rfl

/-- C10, counterexample: a user-submitted message whose text is exactly
`__thinking__` is PRESENT in the session history at the end of the turn —
the final committed list is rebuilt from the pre-removal optimistic list,
so `removeThinking`'s role-blind deletion does not survive the turn. -/
theorem c10_counterexample :
    (ChatWindow.send (ChatWindow.Chat.mk (some "c9") "t" []) "__thinking__"
        (NetResult.err "unused")
        (NetResult.ok (ChatWindow.ReplyResp.mk true none (some "done") none none
          none))).chat.messages =
      [Message.mk "user" "__thinking__", Message.mk "assistant" "done"] := by
  decide

/-- C10, amended: `removeThinking` does delete every message whose text is
`__thinking__` regardless of role, but only transiently — in a fallback
reply turn the final committed list is the optimistic list (which starts
with the user's message, whatever its text) plus the derived assistant
messages, so a user-submitted `__thinking__` message reappears by the end
of the turn. -/
theorem c10_removal_transient (chat : ChatWindow.Chat) (input : String)
    (sn : NetResult ChatWindow.StartResp) (d : ChatWindow.ReplyResp) (msgs : List Message)
    (hid : jsTruthyOptStr chat.id = true) (hin : jsTrim input ≠ "")
    (hok : d.ok = true) (hms : d.messages = none) :
    ChatWindow.removeThinkingList msgs = msgs.filter (fun m => m.text != "__thinking__") ∧
    (ChatWindow.send chat input sn (NetResult.ok d)).chat.messages =
      chat.messages ++ Message.mk "user" input ::
        ((match d.bot_text with
          | some t => if t ≠ "" then [Message.mk "assistant" t] else []
          | none => []) ++
         (match d.columns, d.rows with
          | some cols, some rws => [Message.mk "assistant" (ChatWindow.tableText cols rws)]
          | _, _ => [])) := by
  refine ⟨rfl, ?_⟩
  simp [ChatWindow.send, hid, hin, hok, hms]

/-- Witness for `c10_removal_transient`: a concrete fallback turn keeps
the just-submitted user message first after the prior history. -/
theorem c10_removal_transient_witness :
    ChatWindow.removeThinkingList
        [Message.mk "user" "__thinking__", Message.mk "assistant" "x"] =
      List.filter (fun m => m.text != "__thinking__")
        [Message.mk "user" "__thinking__", Message.mk "assistant" "x"] ∧
    (ChatWindow.send (ChatWindow.Chat.mk (some "c") "t" []) "hello" (NetResult.err "u")
        (NetResult.ok (ChatWindow.ReplyResp.mk true none (some "hi") none none
          none))).chat.messages =
      [] ++ Message.mk "user" "hello" :: ([Message.mk "assistant" "hi"] ++ []) :=
  c10_removal_transient (ChatWindow.Chat.mk (some "c") "t" []) "hello" (NetResult.err "u")
    (ChatWindow.ReplyResp.mk true none (some "hi") none none none)
    [Message.mk "user" "__thinking__", Message.mk "assistant" "x"]
    (by decide) (by decide) rfl rfl
